import Mathlib

/-!
Shallow embedding of the circuit breaker in `src/gobreaker.go`
(package `gobreaker`) together with proofs of the behavioural claims
about it.

Modelling conventions:
* Time instants (`time.Time`) are naturals counting nanoseconds; the Go
  zero `time.Time` is modelled as `0` (`IsZero` becomes `= 0`) and
  `a.Before(b)` is strict `a < b`.  Durations (`time.Duration`) in
  `Settings` are integers (they may be non-positive, which the
  constructor normalises), and the normalised fields of the breaker are
  naturals.
* The Go counters are `uint32`/`uint64`; every claim under study stays
  far below `2^32` increments, so they are modelled as unbounded
  naturals.
* The mutex is dropped: each exported operation runs atomically under
  the lock in Go, so each is one pure state transformer here.
* `onStateChange` is a write-only side channel (never read by the
  breaker) and is omitted from the state.
* Go's `nil` error is `Option.none`; the two sentinel gate errors are a
  dedicated two-value type.
-/

set_option linter.unusedVariables false

namespace Gobreaker

/-- States of the circuit breaker, mirroring the constants
`StateClosed`, `StateHalfOpen`, `StateOpen` of gobreaker.go. -/
inductive State where
  | StateClosed
  | StateHalfOpen
  | StateOpen
deriving DecidableEq, Repr

/-- The two sentinel errors of the admission gate, mirroring
`ErrTooManyRequests` and `ErrOpenState` of gobreaker.go. -/
inductive BreakerError where
  | ErrTooManyRequests
  | ErrOpenState
deriving DecidableEq, Repr

/-- Mirrors the struct `Counts` of gobreaker.go. -/
structure Counts where
  Requests : Nat
  TotalSuccesses : Nat
  TotalFailures : Nat
  ConsecutiveSuccesses : Nat
  ConsecutiveFailures : Nat
deriving DecidableEq, Repr

/-- Mirrors `Counts.onRequest`. -/
def Counts.onRequest (c : Counts) : Counts :=
  { c with Requests := c.Requests + 1 }

/-- Mirrors `Counts.onSuccess`. -/
def Counts.onSuccess (c : Counts) : Counts :=
  { c with
    TotalSuccesses := c.TotalSuccesses + 1
    ConsecutiveSuccesses := c.ConsecutiveSuccesses + 1
    ConsecutiveFailures := 0 }

/-- Mirrors `Counts.onFailure`. -/
def Counts.onFailure (c : Counts) : Counts :=
  { c with
    TotalFailures := c.TotalFailures + 1
    ConsecutiveFailures := c.ConsecutiveFailures + 1
    ConsecutiveSuccesses := 0 }

/-- Mirrors `Counts.clear` (all five fields zeroed). -/
def Counts.clear : Counts :=
  { Requests := 0, TotalSuccesses := 0, TotalFailures := 0,
    ConsecutiveSuccesses := 0, ConsecutiveFailures := 0 }

/-- Mirrors the struct `CircuitBreaker` of gobreaker.go, minus the mutex
(operations are atomic transformers) and the write-only `onStateChange`
callback.  `ε` is the type of operation errors (Go `error` values other
than the gate's own sentinels). -/
structure CircuitBreaker (ε : Type) where
  name : String
  maxRequests : Nat
  interval : Nat
  timeout : Nat
  readyToTrip : Counts → Bool
  isSuccessful : Option ε → Bool
  state : State
  generation : Nat
  counts : Counts
  expiry : Nat

/-- Mirrors the struct `Settings` of gobreaker.go.  The Go `nil`
function fields are `Option.none`; durations may be non-positive. -/
structure Settings (ε : Type) where
  Name : String
  MaxRequests : Nat
  Interval : Int
  Timeout : Int
  ReadyToTrip : Option (Counts → Bool)
  IsSuccessful : Option (Option ε → Bool)

/-- Mirrors `defaultInterval` (0 seconds). -/
def defaultInterval : Int := 0

/-- Mirrors `defaultTimeout` (60 seconds, in nanoseconds). -/
def defaultTimeout : Int := 60 * 1000000000

/-- Mirrors `defaultReadyToTrip`: trip once consecutive failures
exceed 5. -/
def defaultReadyToTrip (counts : Counts) : Bool :=
  decide (5 < counts.ConsecutiveFailures)

/-- Mirrors `defaultIsSuccessful`: success iff the error is nil. -/
def defaultIsSuccessful {ε : Type} (err : Option ε) : Bool :=
  err.isNone

/-- Mirrors `CircuitBreaker.toNewGeneration`: bump the generation, clear
the counts, and recompute the expiry from the (unchanged) state. -/
def toNewGeneration {ε : Type} (cb : CircuitBreaker ε) (now : Nat) : CircuitBreaker ε :=
  { cb with
    generation := cb.generation + 1
    counts := Counts.clear
    expiry :=
      match cb.state with
      | State.StateClosed => if cb.interval = 0 then 0 else now + cb.interval
      | State.StateOpen => now + cb.timeout
      | State.StateHalfOpen => 0 }

/-- Mirrors `NewCircuitBreaker`: normalise the settings onto a
zero-valued breaker, then start the first generation at `now`
(Go calls `time.Now()` there). -/
def NewCircuitBreaker {ε : Type} (st : Settings ε) (now : Nat) : CircuitBreaker ε :=
  toNewGeneration
    { name := st.Name
      maxRequests := if st.MaxRequests = 0 then 1 else st.MaxRequests
      interval := if st.Interval ≤ 0 then defaultInterval.toNat else st.Interval.toNat
      timeout := if st.Timeout ≤ 0 then defaultTimeout.toNat else st.Timeout.toNat
      readyToTrip := st.ReadyToTrip.getD defaultReadyToTrip
      isSuccessful := st.IsSuccessful.getD defaultIsSuccessful
      state := State.StateClosed
      generation := 0
      counts := Counts.clear
      expiry := 0 } now

/-- Mirrors `CircuitBreaker.setState`: a self-transition is a no-op,
otherwise install the new state and start a new generation. -/
def setState {ε : Type} (cb : CircuitBreaker ε) (state : State) (now : Nat) :
    CircuitBreaker ε :=
  if cb.state = state then cb
  else toNewGeneration { cb with state := state } now

/-- Mirrors `CircuitBreaker.currentState`: lazily reconcile an expired
window (Closed: periodic reset; Open: move to HalfOpen) and return the
updated breaker together with its state and generation. -/
def currentState {ε : Type} (cb : CircuitBreaker ε) (now : Nat) :
    CircuitBreaker ε × State × Nat :=
  let cb1 :=
    match cb.state with
    | State.StateClosed =>
        if cb.expiry ≠ 0 ∧ cb.expiry < now then toNewGeneration cb now else cb
    | State.StateOpen =>
        if cb.expiry < now then setState cb State.StateHalfOpen now else cb
    | State.StateHalfOpen => cb
  (cb1, cb1.state, cb1.generation)

/-- Mirrors `CircuitBreaker.beforeRequest`: resolve the current state,
reject while Open or while HalfOpen at the probe quota, otherwise count
the request and admit it under the resolved generation. -/
def beforeRequest {ε : Type} (cb : CircuitBreaker ε) (now : Nat) :
    CircuitBreaker ε × Nat × Option BreakerError :=
  let cb1 := (currentState cb now).1
  if cb1.state = State.StateOpen then
    (cb1, cb1.generation, some BreakerError.ErrOpenState)
  else if cb1.state = State.StateHalfOpen ∧ cb1.maxRequests ≤ cb1.counts.Requests then
    (cb1, cb1.generation, some BreakerError.ErrTooManyRequests)
  else
    ({ cb1 with counts := cb1.counts.onRequest }, cb1.generation, none)

/-- Mirrors `CircuitBreaker.onSuccess` (the method on the breaker, not
the one on `Counts`). -/
def CircuitBreaker.onSuccess {ε : Type} (cb : CircuitBreaker ε) (state : State)
    (now : Nat) : CircuitBreaker ε :=
  match state with
  | State.StateClosed => { cb with counts := cb.counts.onSuccess }
  | State.StateHalfOpen =>
      let cb1 : CircuitBreaker ε := { cb with counts := cb.counts.onSuccess }
      if cb1.maxRequests ≤ cb1.counts.ConsecutiveSuccesses then
        setState cb1 State.StateClosed now
      else cb1
  | State.StateOpen => cb

/-- Mirrors `CircuitBreaker.onFailure` (the method on the breaker, not
the one on `Counts`). -/
def CircuitBreaker.onFailure {ε : Type} (cb : CircuitBreaker ε) (state : State)
    (now : Nat) : CircuitBreaker ε :=
  match state with
  | State.StateClosed =>
      let cb1 : CircuitBreaker ε := { cb with counts := cb.counts.onFailure }
      if cb1.readyToTrip cb1.counts then setState cb1 State.StateOpen now else cb1
  | State.StateHalfOpen => setState cb State.StateOpen now
  | State.StateOpen => cb

/-- Mirrors `CircuitBreaker.afterRequest`: resolve the current state; a
report whose generation token differs from the resolved generation is
discarded, otherwise the success/failure handler runs. -/
def afterRequest {ε : Type} (cb : CircuitBreaker ε) (before : Nat) (success : Bool)
    (now : Nat) : CircuitBreaker ε :=
  let cb1 := (currentState cb now).1
  if cb1.generation ≠ before then cb1
  else if success then cb1.onSuccess cb1.state now
  else cb1.onFailure cb1.state now

/-- Mirrors the exported method `CircuitBreaker.State` (Go takes
`time.Now()` internally): reconcile and return the state. -/
def readState {ε : Type} (cb : CircuitBreaker ε) (now : Nat) :
    CircuitBreaker ε × State :=
  ((currentState cb now).1, (currentState cb now).2.1)

/-- Mirrors the exported method `CircuitBreaker.Counts`: it returns the
stored counters directly, with no time reconciliation. -/
def CircuitBreaker.Counts {ε : Type} (cb : CircuitBreaker ε) : Gobreaker.Counts :=
  cb.counts

/-- Outcome of one invocation of the guarded operation: a normal return
(Go `(interface{}, error)`) or a panic. -/
inductive ReqOutcome (α ε : Type) where
  | ok (result : Option α) (err : Option ε)
  | panics
deriving DecidableEq, Repr

/-- What `Execute` does for its caller: an instant rejection by the
gate, a normal return of the operation's own pair, or a re-raised
panic. -/
inductive ExecResult (α ε : Type) where
  | rejected (err : BreakerError)
  | returned (result : Option α) (err : Option ε)
  | panicked
deriving DecidableEq, Repr

/-- Mirrors `CircuitBreaker.Execute`.  Go reads the clock separately in
`beforeRequest` and `afterRequest`, hence the two instants.  The
deferred recover-block is the `panics` branch: a failure is recorded for
the admitted generation and the panic is re-raised. -/
def Execute {α ε : Type} (cb : CircuitBreaker ε) (req : Unit → ReqOutcome α ε)
    (nowB nowA : Nat) : CircuitBreaker ε × ExecResult α ε :=
  let cb1 := (beforeRequest cb nowB).1
  let generation := (beforeRequest cb nowB).2.1
  match (beforeRequest cb nowB).2.2 with
  | some e => (cb1, ExecResult.rejected e)
  | none =>
      match req () with
      | ReqOutcome.panics =>
          (afterRequest cb1 generation false nowA, ExecResult.panicked)
      | ReqOutcome.ok result err =>
          (afterRequest cb1 generation (cb1.isSuccessful err) nowA,
           ExecResult.returned result err)

/-- A breaker together with the multiset (as a list) of generation
tokens handed out by `beforeRequest` for admitted requests whose
outcome has not yet been reported. -/
structure SysState (ε : Type) where
  cb : CircuitBreaker ε
  outstanding : List Nat

/-- One observable interaction with the breaker: an admission attempt
(`allow`, covering both `Execute`'s first half and the two-step
`Allow`), an outcome report for a held token (`report`, covering
`Execute`'s second half and the two-step callback), or a bare
time-reconciled state read (`inspect`, the exported `State` method).
Each may happen at an arbitrary instant. -/
inductive Step {ε : Type} : SysState ε → SysState ε → Prop where
  | allow (s : SysState ε) (now : Nat) :
      Step s
        { cb := (beforeRequest s.cb now).1
          outstanding :=
            if (beforeRequest s.cb now).2.2 = none then
              (beforeRequest s.cb now).2.1 :: s.outstanding
            else s.outstanding }
  | report (s : SysState ε) (now t : Nat) (success : Bool) (ht : t ∈ s.outstanding) :
      Step s
        { cb := afterRequest s.cb t success now
          outstanding := s.outstanding.erase t }
  | inspect (s : SysState ε) (now : Nat) :
      Step s { cb := (currentState s.cb now).1, outstanding := s.outstanding }

/-- System states reachable from a freshly constructed breaker by any
interleaving of admissions, reports and state reads. -/
inductive Reachable {ε : Type} : SysState ε → Prop where
  | init (st : Settings ε) (now : Nat) :
      Reachable { cb := NewCircuitBreaker st now, outstanding := [] }
  | step {s s' : SysState ε} : Reachable s → Step s s' → Reachable s'

/-- The inductive invariant of the breaker system: outstanding tokens
never exceed the current generation; while Open no outstanding token is
current (entering Open always started a new generation); the request
counter of the current window equals the reported successes plus the
reported failures plus the still-pending admissions of this window; and
at most one streak counter is nonzero. -/
def Inv {ε : Type} (s : SysState ε) : Prop :=
  (∀ t ∈ s.outstanding, t ≤ s.cb.generation) ∧
  (s.cb.state = State.StateOpen → ∀ t ∈ s.outstanding, t < s.cb.generation) ∧
  s.cb.counts.Requests =
    s.cb.counts.TotalSuccesses + s.cb.counts.TotalFailures +
      s.outstanding.count s.cb.generation ∧
  (s.cb.counts.ConsecutiveSuccesses = 0 ∨ s.cb.counts.ConsecutiveFailures = 0)

/-- All-default settings (used for concrete evaluations): `MaxRequests`,
`Interval`, `Timeout` zero, predicates nil. -/
def dfltSettings : Settings Unit :=
  { Name := "", MaxRequests := 0, Interval := 0, Timeout := 0,
    ReadyToTrip := none, IsSuccessful := none }

/-- A freshly constructed all-default breaker, built at instant 0. -/
def cbFixture : CircuitBreaker Unit := NewCircuitBreaker dfltSettings 0

/-- One full admit/report-failure cycle at instant `now` (what
`Execute` does for an operation returning a non-nil error). -/
def failOnce (cb : CircuitBreaker Unit) (now : Nat) : CircuitBreaker Unit :=
  afterRequest (beforeRequest cb now).1 (beforeRequest cb now).2.1 false now

/-- The default breaker after five consecutive reported failures. -/
def cbFiveFails : CircuitBreaker Unit :=
  failOnce (failOnce (failOnce (failOnce (failOnce cbFixture 10) 10) 10) 10) 10

/-- The default breaker after six consecutive reported failures (the
default predicate has tripped it to Open at instant 10). -/
def cbSixFails : CircuitBreaker Unit := failOnce cbFiveFails 10

/-- The tripped breaker admitted again after the 60 s timeout: it is
HalfOpen with one counted probe. -/
def cbHalfProbe : CircuitBreaker Unit := (beforeRequest cbSixFails 70000000000).1

/-- Default settings except `Interval = 5` (nanoseconds). -/
def intervalSettings : Settings Unit :=
  { Name := "", MaxRequests := 0, Interval := 5, Timeout := 0,
    ReadyToTrip := none, IsSuccessful := none }

/-- A breaker with a 5 ns Closed interval after three admissions at
instant 1 (none reported): its window expires at instant 5. -/
def cbInterval3 : CircuitBreaker Unit :=
  (beforeRequest (beforeRequest (beforeRequest
    (NewCircuitBreaker intervalSettings 0) 1).1 1).1 1).1

/-- Default settings except `MaxRequests = 3`. -/
def probeSettings : Settings Unit :=
  { Name := "", MaxRequests := 3, Interval := 0, Timeout := 0,
    ReadyToTrip := none, IsSuccessful := none }

/-- A HalfOpen breaker with probe quota 3 and no probes yet. -/
def cbProbe0 : CircuitBreaker Unit :=
  { NewCircuitBreaker probeSettings 0 with state := State.StateHalfOpen }

/-- `cbProbe0` after one admitted probe. -/
def cbProbe1 : CircuitBreaker Unit := (beforeRequest cbProbe0 1).1

/-- `cbProbe0` after two admitted probes. -/
def cbProbe2 : CircuitBreaker Unit := (beforeRequest cbProbe1 1).1

/-- `cbProbe0` after three admitted probes (the quota). -/
def cbProbe3 : CircuitBreaker Unit := (beforeRequest cbProbe2 1).1

/-- A guarded operation returning `(42, nil)`. -/
def reqOk : Unit → ReqOutcome Nat Unit := fun _ => ReqOutcome.ok (some 42) none

/-- The initial system state over the default breaker. -/
def sys0 : SysState Unit := { cb := NewCircuitBreaker dfltSettings 0, outstanding := [] }

/-- `sys0` after one admission at instant 1 (token 1 outstanding). -/
def sys1 : SysState Unit :=
  { cb := (beforeRequest sys0.cb 1).1
    outstanding :=
      if (beforeRequest sys0.cb 1).2.2 = none then
        (beforeRequest sys0.cb 1).2.1 :: sys0.outstanding
      else sys0.outstanding }

/-- `sys1` after the outstanding probe reports success at instant 2. -/
def sys2 : SysState Unit :=
  { cb := afterRequest sys1.cb 1 true 2, outstanding := sys1.outstanding.erase 1 }

/-! ## Helper lemmas about the individual transformers -/

theorem toNewGeneration_generation {ε : Type} (cb : CircuitBreaker ε) (now : Nat) :
    (toNewGeneration cb now).generation = cb.generation + 1 := rfl

theorem toNewGeneration_counts {ε : Type} (cb : CircuitBreaker ε) (now : Nat) :
    (toNewGeneration cb now).counts = Counts.clear := rfl

theorem toNewGeneration_state {ε : Type} (cb : CircuitBreaker ε) (now : Nat) :
    (toNewGeneration cb now).state = cb.state := rfl

theorem currentState_snd_state {ε : Type} (cb : CircuitBreaker ε) (now : Nat) :
    (currentState cb now).2.1 = (currentState cb now).1.state := rfl

theorem currentState_snd_gen {ε : Type} (cb : CircuitBreaker ε) (now : Nat) :
    (currentState cb now).2.2 = (currentState cb now).1.generation := rfl

/-- Lazy reconciliation either leaves the breaker untouched or starts a
fresh generation (cleared counts, generation bumped) whose state is not
Open: the Closed reset stays Closed and the Open expiry moves to
HalfOpen. -/
theorem currentState_cases {ε : Type} (cb : CircuitBreaker ε) (now : Nat) :
    (currentState cb now).1 = cb ∨
    ((currentState cb now).1.generation = cb.generation + 1 ∧
     (currentState cb now).1.counts = Counts.clear ∧
     (currentState cb now).1.state ≠ State.StateOpen) := by
  obtain ⟨nm, mr, iv, tm, rt, isf, st, gen, cnt, exp⟩ := cb
  cases st <;> simp only [currentState, setState, toNewGeneration] <;>
    first
    | (split <;> simp_all)
    | simp_all

/-- If reconciliation reports Open then nothing happened: the stored
state was already Open and the breaker is unchanged. -/
theorem currentState_open_id {ε : Type} (cb : CircuitBreaker ε) (now : Nat)
    (h : (currentState cb now).1.state = State.StateOpen) :
    (currentState cb now).1 = cb ∧ cb.state = State.StateOpen := by
  obtain ⟨nm, mr, iv, tm, rt, isf, st, gen, cnt, exp⟩ := cb
  cases st <;> simp only [currentState, setState, toNewGeneration] at h ⊢ <;>
    first
    | (split at h <;> simp_all)
    | simp_all

/-- Closed with an unexpired (or unset) window: reconciliation is the
identity. -/
theorem currentState_closed_id {ε : Type} (cb : CircuitBreaker ε) (now : Nat)
    (hst : cb.state = State.StateClosed)
    (hcur : ¬(cb.expiry ≠ 0 ∧ cb.expiry < now)) :
    currentState cb now = (cb, State.StateClosed, cb.generation) := by
  obtain ⟨nm, mr, iv, tm, rt, isf, st, gen, cnt, exp⟩ := cb
  simp only [CircuitBreaker.state] at hst
  subst hst
  simp only [currentState]
  split
  next h => exact absurd h hcur
  next h => rfl

/-- HalfOpen: reconciliation is always the identity. -/
theorem currentState_halfOpen_id {ε : Type} (cb : CircuitBreaker ε) (now : Nat)
    (hst : cb.state = State.StateHalfOpen) :
    currentState cb now = (cb, State.StateHalfOpen, cb.generation) := by
  obtain ⟨nm, mr, iv, tm, rt, isf, st, gen, cnt, exp⟩ := cb
  simp only [CircuitBreaker.state] at hst
  subst hst
  rfl

/-- Open with an unexpired window: reconciliation is the identity. -/
theorem currentState_open_keep {ε : Type} (cb : CircuitBreaker ε) (now : Nat)
    (hst : cb.state = State.StateOpen) (hnlt : ¬cb.expiry < now) :
    currentState cb now = (cb, State.StateOpen, cb.generation) := by
  obtain ⟨nm, mr, iv, tm, rt, isf, st, gen, cnt, exp⟩ := cb
  simp only [CircuitBreaker.state] at hst
  subst hst
  simp only [currentState]
  split
  next h => exact absurd h hnlt
  next h => rfl

/-- Open past its expiry: reconciliation moves to HalfOpen in a fresh
generation. -/
theorem currentState_open_elapse {ε : Type} (cb : CircuitBreaker ε) (now : Nat)
    (hst : cb.state = State.StateOpen) (hlt : cb.expiry < now) :
    currentState cb now =
      (toNewGeneration { cb with state := State.StateHalfOpen } now,
       State.StateHalfOpen, cb.generation + 1) := by
  obtain ⟨nm, mr, iv, tm, rt, isf, st, gen, cnt, exp⟩ := cb
  simp only [CircuitBreaker.state] at hst
  subst hst
  simp only [currentState]
  split
  next h => simp [setState, toNewGeneration]
  next h => exact absurd hlt h

/-- Case analysis of the admission gate: Open rejection, HalfOpen quota
rejection, or admission with a counted request, always under the
resolved breaker and its generation. -/
theorem beforeRequest_spec {ε : Type} (cb : CircuitBreaker ε) (now : Nat) :
    ((currentState cb now).1.state = State.StateOpen ∧
      beforeRequest cb now =
        ((currentState cb now).1, (currentState cb now).1.generation,
         some BreakerError.ErrOpenState)) ∨
    ((currentState cb now).1.state = State.StateHalfOpen ∧
      (currentState cb now).1.maxRequests ≤ (currentState cb now).1.counts.Requests ∧
      beforeRequest cb now =
        ((currentState cb now).1, (currentState cb now).1.generation,
         some BreakerError.ErrTooManyRequests)) ∨
    ((currentState cb now).1.state ≠ State.StateOpen ∧
      beforeRequest cb now =
        ({ (currentState cb now).1 with counts := (currentState cb now).1.counts.onRequest },
         (currentState cb now).1.generation, none)) := by
  by_cases h1 : (currentState cb now).1.state = State.StateOpen
  · exact Or.inl ⟨h1, by simp [beforeRequest, h1]⟩
  · by_cases h2 : (currentState cb now).1.state = State.StateHalfOpen ∧
        (currentState cb now).1.maxRequests ≤ (currentState cb now).1.counts.Requests
    · exact Or.inr (Or.inl ⟨h2.1, h2.2, by simp [beforeRequest, h1, h2]⟩)
    · exact Or.inr (Or.inr ⟨h1, by simp [beforeRequest, h1, h2]⟩)

/-- Unfolded form of the report path. -/
theorem afterRequest_eq {ε : Type} (cb : CircuitBreaker ε) (before : Nat)
    (success : Bool) (now : Nat) :
    afterRequest cb before success now =
      if (currentState cb now).1.generation ≠ before then (currentState cb now).1
      else if success then
        CircuitBreaker.onSuccess (currentState cb now).1 (currentState cb now).1.state now
      else
        CircuitBreaker.onFailure (currentState cb now).1 (currentState cb now).1.state now := rfl

/-- Restatement of the invariant on an explicitly given breaker and
token list. -/
theorem inv_def {ε : Type} (cb : CircuitBreaker ε) (l : List Nat) :
    Inv { cb := cb, outstanding := l } ↔
      ((∀ t ∈ l, t ≤ cb.generation) ∧
       (cb.state = State.StateOpen → ∀ t ∈ l, t < cb.generation) ∧
       cb.counts.Requests =
         cb.counts.TotalSuccesses + cb.counts.TotalFailures + l.count cb.generation ∧
       (cb.counts.ConsecutiveSuccesses = 0 ∨ cb.counts.ConsecutiveFailures = 0)) :=
  Iff.rfl

/-- A breaker that has just started a fresh generation (counts cleared,
generation bumped past every outstanding token) satisfies the invariant
with any subcollection of the old tokens. -/
theorem inv_fresh {ε : Type} (s : SysState ε) (cb1 : CircuitBreaker ε) (l1 : List Nat)
    (h1 : ∀ x ∈ s.outstanding, x ≤ s.cb.generation)
    (hg : cb1.generation = s.cb.generation + 1)
    (hcl : cb1.counts = Counts.clear)
    (hsub : ∀ x ∈ l1, x ∈ s.outstanding) :
    Inv { cb := cb1, outstanding := l1 } := by
  have hcnt : l1.count cb1.generation = 0 :=
    List.count_eq_zero_of_not_mem (fun hm => by have := h1 _ (hsub _ hm); omega)
  rw [inv_def]
  refine ⟨?_, ?_, ?_, ?_⟩
  · intro x hx
    have := h1 x (hsub x hx)
    omega
  · intro _ x hx
    have := h1 x (hsub x hx)
    omega
  · rw [hcl, hcnt]
    simp [Counts.clear]
  · rw [hcl]
    exact Or.inl rfl

/-- Consuming the current-generation token of a report that tallies one
more resolved outcome, without changing the window, preserves the
invariant. -/
theorem inv_consume {ε : Type} (s : SysState ε) (t : Nat) (cb1 : CircuitBreaker ε)
    (ht : t ∈ s.outstanding) (hgeq : s.cb.generation = t)
    (hgen : cb1.generation = s.cb.generation)
    (hstate : cb1.state ≠ State.StateOpen)
    (hreq : cb1.counts.Requests = s.cb.counts.Requests)
    (hsum : cb1.counts.TotalSuccesses + cb1.counts.TotalFailures =
      s.cb.counts.TotalSuccesses + s.cb.counts.TotalFailures + 1)
    (hstreak : cb1.counts.ConsecutiveSuccesses = 0 ∨ cb1.counts.ConsecutiveFailures = 0)
    (h : Inv s) :
    Inv { cb := cb1, outstanding := s.outstanding.erase t } := by
  obtain ⟨h1, h2, h3, h4⟩ := h
  have hpos : 0 < s.outstanding.count t := List.count_pos_iff.mpr ht
  rw [inv_def]
  refine ⟨?_, ?_, ?_, ?_⟩
  · intro x hx
    rw [hgen]
    exact h1 x (List.mem_of_mem_erase hx)
  · intro ho
    exact absurd ho hstate
  · rw [hgen, hgeq, List.count_erase_self]
    rw [hgeq] at h3
    omega
  · exact hstreak

/-- The admission step preserves the invariant. -/
theorem inv_allow {ε : Type} (s : SysState ε) (now : Nat) (h : Inv s) :
    Inv { cb := (beforeRequest s.cb now).1
          outstanding :=
            if (beforeRequest s.cb now).2.2 = none then
              (beforeRequest s.cb now).2.1 :: s.outstanding
            else s.outstanding } := by
  obtain ⟨h1, h2, h3, h4⟩ := h
  rcases beforeRequest_spec s.cb now with ⟨hopen, heq⟩ | ⟨hho, hqr, heq⟩ | ⟨hno, heq⟩
  · -- rejected while Open: tokens unchanged
    rw [heq]
    dsimp only
    simp only [reduceCtorEq, ite_false]
    rcases currentState_cases s.cb now with hid | ⟨hg, hcl, hso⟩
    · rw [hid]
      exact ⟨h1, h2, h3, h4⟩
    · exact absurd hopen hso
  · -- rejected at the HalfOpen quota: tokens unchanged
    rw [heq]
    dsimp only
    simp only [reduceCtorEq, ite_false]
    rcases currentState_cases s.cb now with hid | ⟨hg, hcl, hso⟩
    · rw [hid]
      exact ⟨h1, h2, h3, h4⟩
    · exact inv_fresh s _ _ h1 hg hcl (fun x hx => hx)
  · -- admitted: the resolved generation is issued as a token
    rw [heq]
    dsimp only
    simp only [eq_self_iff_true, ite_true]
    rcases currentState_cases s.cb now with hid | ⟨hg, hcl, hso⟩
    · rw [hid] at hno ⊢
      rw [inv_def]
      dsimp only
      refine ⟨?_, ?_, ?_, ?_⟩
      · intro x hx
        rcases List.mem_cons.mp hx with hx | hx
        · omega
        · exact h1 x hx
      · intro ho
        exact absurd ho hno
      · simp only [Counts.onRequest]
        rw [List.count_cons_self]
        omega
      · exact h4
    · rw [inv_def]
      dsimp only
      refine ⟨?_, ?_, ?_, ?_⟩
      · intro x hx
        rcases List.mem_cons.mp hx with hx | hx
        · omega
        · have := h1 x hx
          omega
      · intro ho
        exact absurd ho hso
      · have hcnt : s.outstanding.count ((currentState s.cb now).1.generation) = 0 :=
          List.count_eq_zero_of_not_mem (fun hm => by have := h1 _ hm; omega)
        simp only [Counts.onRequest, hcl, Counts.clear]
        rw [List.count_cons_self, hcnt]
      · simp [Counts.onRequest, hcl, Counts.clear]

/-- The report step preserves the invariant. -/
theorem inv_report {ε : Type} (s : SysState ε) (now t : Nat) (success : Bool)
    (ht : t ∈ s.outstanding) (h : Inv s) :
    Inv { cb := afterRequest s.cb t success now
          outstanding := s.outstanding.erase t } := by
  obtain ⟨h1, h2, h3, h4⟩ := h
  rw [afterRequest_eq]
  rcases currentState_cases s.cb now with hid | ⟨hg, hcl, hso⟩
  · -- reconciliation was the identity
    rw [hid]
    by_cases hgen : s.cb.generation = t
    · -- the report carries the current generation: dispatch
      rw [if_neg (not_ne_iff.mpr hgen)]
      cases hstv : s.cb.state with
      | StateClosed =>
        cases success with
        | true =>
          rw [if_pos rfl]
          simp only [CircuitBreaker.onSuccess]
          exact inv_consume s t _ ht hgen rfl (by simp [hstv]) rfl
            (by dsimp only [Counts.onSuccess]; omega) (Or.inr rfl) ⟨h1, h2, h3, h4⟩
        | false =>
          rw [if_neg Bool.false_ne_true]
          simp only [CircuitBreaker.onFailure]
          by_cases htrip : s.cb.readyToTrip s.cb.counts.onFailure = true
          · rw [if_pos htrip]
            simp only [setState]
            rw [hstv]
            simp only [reduceCtorEq, ite_false]
            exact inv_fresh s _ _ h1 rfl rfl (fun x hx => List.mem_of_mem_erase hx)
          · rw [if_neg htrip]
            exact inv_consume s t _ ht hgen rfl (by simp [hstv]) rfl
              (by dsimp only [Counts.onFailure]; omega) (Or.inl rfl) ⟨h1, h2, h3, h4⟩
      | StateHalfOpen =>
        cases success with
        | true =>
          rw [if_pos rfl]
          simp only [CircuitBreaker.onSuccess]
          by_cases hmax : s.cb.maxRequests ≤ s.cb.counts.onSuccess.ConsecutiveSuccesses
          · rw [if_pos hmax]
            simp only [setState]
            rw [hstv]
            simp only [reduceCtorEq, ite_false]
            exact inv_fresh s _ _ h1 rfl rfl (fun x hx => List.mem_of_mem_erase hx)
          · rw [if_neg hmax]
            exact inv_consume s t _ ht hgen rfl (by simp [hstv]) rfl
              (by dsimp only [Counts.onSuccess]; omega) (Or.inr rfl) ⟨h1, h2, h3, h4⟩
        | false =>
          rw [if_neg Bool.false_ne_true]
          simp only [CircuitBreaker.onFailure]
          simp only [setState]
          rw [hstv]
          simp only [reduceCtorEq, ite_false]
          exact inv_fresh s _ _ h1 rfl rfl (fun x hx => List.mem_of_mem_erase hx)
      | StateOpen =>
        exact absurd hgen (by have := h2 hstv t ht; omega)
    · -- stale report: discarded, the token is still consumed
      rw [if_pos hgen]
      rw [inv_def]
      refine ⟨fun x hx => h1 x (List.mem_of_mem_erase hx),
        fun ho x hx => h2 ho x (List.mem_of_mem_erase hx), ?_, h4⟩
      rw [List.count_erase_of_ne hgen]
      exact h3
  · -- reconciliation renewed the window: every token is stale
    have hne : (currentState s.cb now).1.generation ≠ t := by
      have := h1 t ht
      omega
    rw [if_pos hne]
    exact inv_fresh s _ _ h1 hg hcl (fun x hx => List.mem_of_mem_erase hx)

/-- The bare state-read step preserves the invariant. -/
theorem inv_inspect {ε : Type} (s : SysState ε) (now : Nat) (h : Inv s) :
    Inv { cb := (currentState s.cb now).1, outstanding := s.outstanding } := by
  obtain ⟨h1, h2, h3, h4⟩ := h
  rcases currentState_cases s.cb now with hid | ⟨hg, hcl, hso⟩
  · rw [hid]
    exact ⟨h1, h2, h3, h4⟩
  · exact inv_fresh s _ _ h1 hg hcl (fun x hx => hx)

/-- The invariant holds at construction. -/
theorem inv_init {ε : Type} (st : Settings ε) (now : Nat) :
    Inv { cb := NewCircuitBreaker st now, outstanding := ([] : List Nat) } := by
  rw [inv_def]
  refine ⟨?_, ?_, ?_, ?_⟩ <;> simp [NewCircuitBreaker, toNewGeneration, Counts.clear]

/-- Every reachable system state satisfies the invariant. -/
theorem reachable_inv {ε : Type} {s : SysState ε} (h : Reachable s) : Inv s := by
  induction h with
  | init st now => exact inv_init st now
  | @step s1 s2 hr hstep ih =>
      cases hstep with
      | allow now => exact inv_allow s1 now ih
      | report now t success ht => exact inv_report s1 now t success ht ih
      | inspect now => exact inv_inspect s1 now ih

/-! ## Claim theorems -/

/-- C10: a breaker returned by the constructor starts Closed with all
five counters zero and its generation already advanced once from the
zero value (the first window is generation 1); with a non-positive
(default-zero) interval the initial expiry is the unset zero time. -/
theorem new_breaker_initial_window {ε : Type} (st : Settings ε) (now : Nat) :
    (NewCircuitBreaker st now).state = State.StateClosed ∧
    (NewCircuitBreaker st now).generation = 1 ∧
    (NewCircuitBreaker st now).counts = Counts.clear ∧
    (st.Interval ≤ 0 → (NewCircuitBreaker st now).expiry = 0) := by
  refine ⟨rfl, rfl, rfl, fun h => ?_⟩
  simp [NewCircuitBreaker, toNewGeneration, defaultInterval, h]

/-- Witness for C10 at the default settings and instant 7. -/
theorem new_breaker_initial_window_witness :
    (NewCircuitBreaker dfltSettings 7).expiry = 0 :=
  (new_breaker_initial_window dfltSettings 7).2.2.2 (by decide)

/-- C1: an outcome report is dispatched to the success/failure handler
exactly when its generation token equals the resolved generation;
otherwise the report leaves the breaker exactly as lazy time
reconciliation alone would, recording nothing. -/
theorem afterRequest_generation_check {ε : Type} (cb : CircuitBreaker ε)
    (before : Nat) (success : Bool) (now : Nat) :
    ((currentState cb now).2.2 ≠ before →
      afterRequest cb before success now = (currentState cb now).1) ∧
    ((currentState cb now).2.2 = before →
      afterRequest cb before success now =
        (if success then
          CircuitBreaker.onSuccess (currentState cb now).1 (currentState cb now).2.1 now
         else
          CircuitBreaker.onFailure (currentState cb now).1 (currentState cb now).2.1 now)) := by
  constructor <;> intro h <;> simp [afterRequest, currentState_snd_gen] at h ⊢ <;>
    simp [h, currentState_snd_state]

/-- Witness for C1: a report carrying the stale token 7 against the
fresh default breaker (whose resolved generation is 1) changes nothing
beyond reconciliation. -/
theorem afterRequest_generation_check_witness :
    afterRequest cbFixture 7 true 5 = (currentState cbFixture 5).1 :=
  (afterRequest_generation_check cbFixture 7 true 5).1 (by decide)

/-- C6 counterexample: with a 5 ns Closed interval, admit three
requests at instant 1; the window expiry (instant 5) is long past at
instant 100, yet the public counts accessor still reads `Requests = 3`,
not all-zero, because `Counts()` performs no time reconciliation. -/
theorem counts_read_after_interval_counterexample :
    cbInterval3.state = State.StateClosed ∧
    cbInterval3.interval = 5 ∧
    cbInterval3.expiry < 100 ∧
    CircuitBreaker.Counts cbInterval3 =
      { Requests := 3, TotalSuccesses := 0, TotalFailures := 0,
        ConsecutiveSuccesses := 0, ConsecutiveFailures := 0 } ∧
    CircuitBreaker.Counts cbInterval3 ≠ Counts.clear := by
  refine ⟨rfl, rfl, by decide, rfl, by decide⟩

/-- C6 (amended): while Closed with a nonzero interval, once the clock
passes the window expiry the next reconciling operation (any state
read, admission or report resolves via `currentState`) clears the
counts in place, with no state change; a `Counts()` read after that
reconciliation returns all-zero. -/
theorem closed_interval_lazy_clear {ε : Type} (cb : CircuitBreaker ε) (now : Nat)
    (hst : cb.state = State.StateClosed) (hnz : cb.expiry ≠ 0)
    (hlt : cb.expiry < now) :
    CircuitBreaker.Counts (currentState cb now).1 = Counts.clear ∧
    (currentState cb now).2.1 = State.StateClosed := by
  obtain ⟨nm, mr, iv, tm, rt, isf, st, gen, cnt, exp⟩ := cb
  simp only [CircuitBreaker.state] at hst
  subst hst
  simp_all [currentState, toNewGeneration, CircuitBreaker.Counts]

/-- Witness for C6 (amended): reconciling the three-admission breaker
at instant 100 yields an all-zero counts read. -/
theorem closed_interval_lazy_clear_witness :
    CircuitBreaker.Counts (currentState cbInterval3 100).1 = Counts.clear :=
  (closed_interval_lazy_clear cbInterval3 100 (by decide) (by decide) (by decide)).1

/-- C2: in the Closed state, a failure reported against the
still-current generation increments the failure tallies; if the trip
predicate holds of the post-increment counts the breaker moves to Open
with counts cleared, a bumped generation and expiry `now + timeout`,
otherwise only the counters change; under the default predicate the
trip happens exactly when the post-increment consecutive-failure count
exceeds 5, i.e. on the sixth consecutive failure. -/
theorem closed_failure_trips {ε : Type} (cb : CircuitBreaker ε) (now : Nat)
    (hst : cb.state = State.StateClosed)
    (hcur : ¬(cb.expiry ≠ 0 ∧ cb.expiry < now)) :
    (cb.readyToTrip cb.counts.onFailure = true →
      (afterRequest cb cb.generation false now).state = State.StateOpen ∧
      (afterRequest cb cb.generation false now).counts = Counts.clear ∧
      (afterRequest cb cb.generation false now).expiry = now + cb.timeout ∧
      (afterRequest cb cb.generation false now).generation = cb.generation + 1) ∧
    (cb.readyToTrip cb.counts.onFailure = false →
      afterRequest cb cb.generation false now = { cb with counts := cb.counts.onFailure }) ∧
    (cb.readyToTrip = defaultReadyToTrip →
      ((afterRequest cb cb.generation false now).state = State.StateOpen ↔
        5 < cb.counts.ConsecutiveFailures + 1)) := by
  have hc := currentState_closed_id cb now hst hcur
  refine ⟨fun htrip => ?_, fun htrip => ?_, fun hrt => ?_⟩
  · simp [afterRequest, hc, CircuitBreaker.onFailure, hst, htrip, setState,
      toNewGeneration]
  · simp [afterRequest, hc, CircuitBreaker.onFailure, hst, htrip, setState,
      toNewGeneration]
  · by_cases hcf : 5 < cb.counts.ConsecutiveFailures + 1 <;>
      simp [afterRequest, hc, CircuitBreaker.onFailure, hst, hrt, setState,
        toNewGeneration, defaultReadyToTrip, Counts.onFailure, hcf]

/-- Witness for C2: the default breaker holding five consecutive
failures trips to Open on the sixth. -/
theorem closed_failure_trips_witness :
    (afterRequest cbFiveFails cbFiveFails.generation false 10).state = State.StateOpen :=
  ((closed_failure_trips cbFiveFails 10 (by decide) (by decide)).2.2 rfl).mpr (by decide)

/-- C3: while Open, an admission attempt at or before the stored expiry
is rejected with the open-state error and leaves the breaker (hence
every counter) untouched; the first attempt strictly after the expiry
resolves the state to HalfOpen, is admitted, and is counted as the one
request of the fresh window; and from Open the resolved state is
HalfOpen exactly when the expiry has passed — the transition is purely
time-driven. -/
theorem open_state_admission {ε : Type} (cb : CircuitBreaker ε) (now : Nat)
    (hst : cb.state = State.StateOpen) :
    (¬cb.expiry < now →
      beforeRequest cb now = (cb, cb.generation, some BreakerError.ErrOpenState)) ∧
    (cb.expiry < now → 0 < cb.maxRequests →
      (beforeRequest cb now).1.state = State.StateHalfOpen ∧
      (beforeRequest cb now).2.2 = none ∧
      (beforeRequest cb now).1.counts.Requests = 1 ∧
      (beforeRequest cb now).1.generation = cb.generation + 1) ∧
    ((currentState cb now).2.1 = State.StateHalfOpen ↔ cb.expiry < now) := by
  refine ⟨fun hnlt => ?_, fun hlt hmr => ?_, ?_⟩
  · simp [beforeRequest, currentState_open_keep cb now hst hnlt, hst]
  · simp [beforeRequest, currentState_open_elapse cb now hst hlt,
      toNewGeneration, Nat.not_le.mpr hmr, Counts.onRequest, Counts.clear]
  · by_cases hlt : cb.expiry < now
    · simp [currentState_open_elapse cb now hst hlt, toNewGeneration, hlt]
    · simp [currentState_open_keep cb now hst hlt, hlt]

/-- Witness for C3: the tripped breaker rejects at instant 20 and
admits as HalfOpen at instant 70 000 000 000 (past the 60 s timeout). -/
theorem open_state_admission_witness :
    beforeRequest cbSixFails 20 =
      (cbSixFails, cbSixFails.generation, some BreakerError.ErrOpenState) ∧
    (beforeRequest cbSixFails 70000000000).1.state = State.StateHalfOpen ∧
    (beforeRequest cbSixFails 70000000000).2.2 = none :=
  ⟨(open_state_admission cbSixFails 20 (by decide)).1 (by decide),
   ((open_state_admission cbSixFails 70000000000 (by decide)).2.1 (by decide) (by decide)).1,
   ((open_state_admission cbSixFails 70000000000 (by decide)).2.1 (by decide) (by decide)).2.1⟩

/-- C4: while HalfOpen, an admission attempt is admitted (and counted)
exactly while fewer than `maxRequests` requests have been counted in
the current generation, and is rejected unchanged with the
too-many-requests error once the count has reached `maxRequests`,
independently of how those admitted probes resolve. -/
theorem halfOpen_probe_quota {ε : Type} (cb : CircuitBreaker ε) (now : Nat)
    (hst : cb.state = State.StateHalfOpen) :
    (cb.counts.Requests < cb.maxRequests →
      beforeRequest cb now =
        ({ cb with counts := cb.counts.onRequest }, cb.generation, none)) ∧
    (cb.maxRequests ≤ cb.counts.Requests →
      beforeRequest cb now = (cb, cb.generation, some BreakerError.ErrTooManyRequests)) := by
  have hc := currentState_halfOpen_id cb now hst
  refine ⟨fun hlt => ?_, fun hle => ?_⟩
  · simp [beforeRequest, hc, hst, Nat.not_le.mpr hlt]
  · simp [beforeRequest, hc, hst, hle]

/-- Witness for C4 at quota 3: the third admission succeeds, the fourth
is rejected with the too-many-requests error. -/
theorem halfOpen_probe_quota_witness :
    (beforeRequest cbProbe2 1).2.2 = none ∧
    beforeRequest cbProbe3 1 = (cbProbe3, cbProbe3.generation,
      some BreakerError.ErrTooManyRequests) := by
  constructor
  · rw [(halfOpen_probe_quota cbProbe2 1 (by decide)).1 (by decide)]
  · exact (halfOpen_probe_quota cbProbe3 1 (by decide)).2 (by decide)

/-- C5: while HalfOpen, a success reported against the current
generation whose post-increment consecutive-success count reaches
`maxRequests` moves the breaker to Closed with all counts cleared
(below the threshold only the success tallies change), and any single
failure reported against the current generation moves it to Open with
all counts cleared, a bumped generation and expiry `now + timeout`,
regardless of the accumulated counts. -/
theorem halfOpen_outcome_transitions {ε : Type} (cb : CircuitBreaker ε) (now : Nat)
    (hst : cb.state = State.StateHalfOpen) :
    ((cb.maxRequests ≤ cb.counts.ConsecutiveSuccesses + 1 →
      (afterRequest cb cb.generation true now).state = State.StateClosed ∧
      (afterRequest cb cb.generation true now).counts = Counts.clear) ∧
     (cb.counts.ConsecutiveSuccesses + 1 < cb.maxRequests →
      afterRequest cb cb.generation true now = { cb with counts := cb.counts.onSuccess })) ∧
    ((afterRequest cb cb.generation false now).state = State.StateOpen ∧
     (afterRequest cb cb.generation false now).counts = Counts.clear ∧
     (afterRequest cb cb.generation false now).generation = cb.generation + 1 ∧
     (afterRequest cb cb.generation false now).expiry = now + cb.timeout) := by
  have hc := currentState_halfOpen_id cb now hst
  refine ⟨⟨fun hle => ?_, fun hlt => ?_⟩, ?_⟩
  · simp [afterRequest, hc, CircuitBreaker.onSuccess, hst, setState,
      toNewGeneration, Counts.onSuccess, hle]
  · simp [afterRequest, hc, CircuitBreaker.onSuccess, hst, setState,
      toNewGeneration, Counts.onSuccess, Nat.not_le.mpr hlt]
  · simp [afterRequest, hc, CircuitBreaker.onFailure, hst, setState,
      toNewGeneration]

/-- Witness for C5: the HalfOpen probe breaker (quota 1) closes on one
success and re-opens on one failure. -/
theorem halfOpen_outcome_transitions_witness :
    (afterRequest cbHalfProbe cbHalfProbe.generation true 70000000001).state =
      State.StateClosed ∧
    (afterRequest cbHalfProbe cbHalfProbe.generation false 70000000001).state =
      State.StateOpen :=
  ⟨((halfOpen_outcome_transitions cbHalfProbe 70000000001 (by decide)).1.1 (by decide)).1,
   (halfOpen_outcome_transitions cbHalfProbe 70000000001 (by decide)).2.1⟩

/-- C8: `Execute` returns a gate rejection as-is without consulting the
operation (the result is the same for any operation); when admitted it
reports the classifier's verdict on the operation's error through
`afterRequest` under the admitted generation and passes the operation's
own result and error through unchanged; and a panicking operation gets
a failure recorded for the admitted generation before the panic
propagates. -/
theorem execute_behavior {α ε : Type} (cb : CircuitBreaker ε)
    (req req2 : Unit → ReqOutcome α ε) (nowB nowA : Nat) :
    (∀ e, (beforeRequest cb nowB).2.2 = some e →
      Execute cb req nowB nowA = ((beforeRequest cb nowB).1, ExecResult.rejected e) ∧
      Execute cb req nowB nowA = Execute cb req2 nowB nowA) ∧
    ((beforeRequest cb nowB).2.2 = none →
      (∀ r er, req () = ReqOutcome.ok r er →
        Execute cb req nowB nowA =
          (afterRequest (beforeRequest cb nowB).1 (beforeRequest cb nowB).2.1
             ((beforeRequest cb nowB).1.isSuccessful er) nowA,
           ExecResult.returned r er)) ∧
      (req () = ReqOutcome.panics →
        Execute cb req nowB nowA =
          (afterRequest (beforeRequest cb nowB).1 (beforeRequest cb nowB).2.1
             false nowA,
           ExecResult.panicked))) := by
  refine ⟨fun e he => ?_, fun hn => ⟨fun r er hr => ?_, fun hp => ?_⟩⟩
  · constructor <;> simp [Execute, he]
  · simp [Execute, hn, hr]
  · simp [Execute, hn, hp]

/-- Witness for C8: a successful operation's pair `(42, nil)` passes
through the default breaker unchanged, and the tripped breaker rejects
without touching the operation. -/
theorem execute_behavior_witness :
    Execute cbFixture reqOk 1 2 =
      (afterRequest (beforeRequest cbFixture 1).1 (beforeRequest cbFixture 1).2.1
         ((beforeRequest cbFixture 1).1.isSuccessful none) 2,
       ExecResult.returned (some 42) none) ∧
    Execute cbSixFails reqOk 20 21 =
      ((beforeRequest cbSixFails 20).1, ExecResult.rejected BreakerError.ErrOpenState) :=
  ⟨((execute_behavior cbFixture reqOk reqOk 1 2).2 (by decide)).1 (some 42) none rfl,
   ((execute_behavior cbSixFails reqOk reqOk 20 21).1
      BreakerError.ErrOpenState (by decide)).1⟩

/-- C7: in every reachable execution, an outcome report whose
generation token matches the resolved current generation never finds
the resolved state Open — the success/failure handlers are never
dispatched while the breaker is Open, because entering Open always
starts a new generation and no admission is granted while Open. -/
theorem matched_report_not_open {ε : Type} {s : SysState ε} (hr : Reachable s)
    (now t : Nat) (ht : t ∈ s.outstanding)
    (hgen : (currentState s.cb now).2.2 = t) :
    (currentState s.cb now).2.1 ≠ State.StateOpen := by
  intro hopen
  obtain ⟨hid, hOpen⟩ := currentState_open_id s.cb now hopen
  obtain ⟨-, h2, -, -⟩ := reachable_inv hr
  have hlt := h2 hOpen t ht
  rw [currentState_snd_gen, hid] at hgen
  omega

/-- Witness for C7: after the one admission recorded in `sys1`, the
outstanding token 1 matches the generation resolved at instant 2, and
the resolved state is not Open. -/
theorem matched_report_not_open_witness :
    (currentState sys1.cb 2).2.1 ≠ State.StateOpen :=
  matched_report_not_open
    (Reachable.step (Reachable.init dfltSettings 0) (Step.allow sys0 1)) 2 1
    (by decide) (by decide)

/-- C9: in every reachable system state, at any point, at most one of
the two streak counters is nonzero; and whenever every admission has
been resolved in its own generation or superseded by a generation
change (no outstanding token of the current generation), the reported
successes and failures add up exactly to the request counter. -/
theorem counts_accounting {ε : Type} {s : SysState ε} (hr : Reachable s) :
    (s.cb.counts.ConsecutiveSuccesses = 0 ∨ s.cb.counts.ConsecutiveFailures = 0) ∧
    (s.outstanding.count s.cb.generation = 0 →
      s.cb.counts.TotalSuccesses + s.cb.counts.TotalFailures = s.cb.counts.Requests) := by
  obtain ⟨-, -, h3, h4⟩ := reachable_inv hr
  refine ⟨h4, fun hq => ?_⟩
  rw [hq] at h3
  omega

/-- Witness for C9: after the full admit/report cycle of `sys2`, at
most one streak counter is nonzero and the one success plus zero
failures equal the one counted request. -/
theorem counts_accounting_witness :
    (sys2.cb.counts.ConsecutiveSuccesses = 0 ∨
      sys2.cb.counts.ConsecutiveFailures = 0) ∧
    sys2.cb.counts.TotalSuccesses + sys2.cb.counts.TotalFailures =
      sys2.cb.counts.Requests :=
  ⟨(counts_accounting
      (Reachable.step
        (Reachable.step (Reachable.init dfltSettings 0) (Step.allow sys0 1))
        (Step.report sys1 2 1 true (by decide)))).1,
   (counts_accounting
      (Reachable.step
        (Reachable.step (Reachable.init dfltSettings 0) (Step.allow sys0 1))
        (Step.report sys1 2 1 true (by decide)))).2
     (by decide)⟩

end Gobreaker
